import Mathlib

/-!
Verification of the MDSINE2 posterior-inference engine and the model-comparison
plotting tool, shallowly embedded from `src/mdsine2/posterior.py` and
`src/clv/plot_prediction_results.py`.

Machine floats are modelled as real numbers; list-valued data replaces numpy
arrays.  Linear-algebra primitives that live outside the repository sources
(`numpy.linalg.pinv`, `pylab.math.log_det`, ...) are abstracted as function
parameters, and control flow around them is translated faithfully.
-/

/- ===================================================================
   §1  Negative-binomial log-likelihoods (posterior.py lines 24-86)
   =================================================================== -/

/-- Embeds `math.lgamma` (log-gamma; the arguments used are positive). -/
noncomputable def lgamma (x : ℝ) : ℝ := Real.log (Real.Gamma x)

/-- Embeds the constant `_LOG_INV_SQRT_2PI = np.log(1/np.sqrt(2*math.pi))`. -/
noncomputable def _LOG_INV_SQRT_2PI : ℝ := Real.log (1 / Real.sqrt (2 * Real.pi))

/-- Embeds `_normal_logpdf(value, mean, std)`:
`_LOG_INV_SQRT_2PI + (-0.5*((value-mean)/std)**2) - np.log(std)`. -/
noncomputable def _normal_logpdf (value mean std : ℝ) : ℝ :=
  _LOG_INV_SQRT_2PI + (-(0.5) * ((value - mean) / std) ^ 2) - Real.log std

/-- Embeds `negbin_loglikelihood(k, m, dispersion)`:
`r = 1/dispersion`, result
`lgamma(k+r) - lgamma(k+1) - lgamma(r) + r*(log r - log(r+m)) + k*(log m - log(r+m))`. -/
noncomputable def negbin_loglikelihood (k m dispersion : ℝ) : ℝ :=
  let r := 1 / dispersion
  lgamma (k + r) - lgamma (k + 1) - lgamma r
    + r * (Real.log r - Real.log (r + m)) + k * (Real.log m - Real.log (r + m))

/-- Embeds `negbin_loglikelihood_MH_condensed(k, m, dispersion)`:
`r = 1/dispersion`, `rm = r+m`, result
`lgamma(k+r) - lgamma(r) + r*(log r - log rm) + k*(log m - log rm)`. -/
noncomputable def negbin_loglikelihood_MH_condensed (k m dispersion : ℝ) : ℝ :=
  let r := 1 / dispersion
  let rm := r + m
  lgamma (k + r) - lgamma r
    + r * (Real.log r - Real.log rm) + k * (Real.log m - Real.log rm)

/- ===================================================================
   §2  Expected number of clusters (posterior.py lines 117-131)
   =================================================================== -/

/-- Embeds `expected_n_clusters(G)`: with `conc` the prior mean of the
concentration parameter and `n_asvs` the number of ASVs, returns
`conc * np.log((n_asvs + conc) / conc)`. -/
noncomputable def expected_n_clusters (conc : ℝ) (n_asvs : ℕ) : ℝ :=
  conc * Real.log ((n_asvs + conc) / conc)

/-- The claim's formula for `expected_n_clusters`, written from the spec's
words: `concentration · ln((n + concentration)/concentration)`. -/
noncomputable def expected_n_clusters_spec (conc : ℝ) (n : ℕ) : ℝ :=
  conc * Real.log ((n + conc) / conc)

/- ===================================================================
   §3  Latent-trajectory filter transition density
       (SubjectLogTrajectorySetMP, posterior.py lines 3526-3642)
   =================================================================== -/

/-- Embeds `SubjectLogTrajectorySetMP.compute_dynamics(tidx, Axj, a1)`:
with `logxi = curr_logx[tidx]`, `xi = curr_x[tidx]`, returns
`logxi + (a1 - xi*curr_self_interaction + Axj) * dts[tidx]`.
`a1` is the growth rate, already perturbation-scaled by the caller
(`set_attrs_for_timepoint` selects `growth*(1+perturbation)` when the cluster
is inside an active perturbation); `Axj` is the summed interaction term
`Σ_j A_ij·x_j(t)`. -/
noncomputable def compute_dynamics
    (logxi xi curr_self_interaction Axj a1 dt : ℝ) : ℝ :=
  logxi + (a1 - xi * curr_self_interaction + Axj) * dt

/-- Embeds `SubjectLogTrajectorySetMP.default_forward_loglik()`:
the transition log-density from timepoint `tidx` to `tidx+1`, namely
`normal.logpdf(value = curr_logx[next_tidx], mean = compute_dynamics(...),
std = curr_pv_std * sqrt_dts[tidx])` where `curr_pv_std = sqrt(pv)` and
`sqrt_dts[tidx] = sqrt(dts[tidx])`. -/
noncomputable def default_forward_loglik
    (next_logx logxi xi curr_self_interaction Axj a1 dt curr_pv_std : ℝ) : ℝ :=
  _normal_logpdf next_logx
    (compute_dynamics logxi xi curr_self_interaction Axj a1 dt)
    (curr_pv_std * Real.sqrt dt)

/-- The transition density as the claim words it: Normal with the same mean
but with noise *variance* `process_variance/Δt`, i.e. standard deviation
`sqrt(pv/Δt)`. -/
noncomputable def forward_loglik_claimed
    (next_logx logxi xi a2 Axj a1 dt pv : ℝ) : ℝ :=
  _normal_logpdf next_logx (logxi + (a1 - xi * a2 + Axj) * dt)
    (Real.sqrt (pv / dt))

/- ===================================================================
   §4  Self-interaction truncation presets
       (SelfInteractions, posterior.py lines 6152-6186)
   =================================================================== -/

/-- Truncation preset selector for the self-interaction variable. -/
inductive SITruncPreset
  | mouse
  | human
deriving DecidableEq

/-- Validation errors raised while setting the truncation bounds. -/
inductive SITruncError
  | growthNotInitialized
  | rescaleValueNotPositive
deriving DecidableEq

/-- Embeds the `'mouse'`/`'human'` branch of `SelfInteractions.initialize`
(posterior.py lines 6161-6180).  The code, verbatim:

  `high = 1e13` for `'mouse'` else `1e14`; `low = 1e2`;
  if a rescale value is given (must be positive), `high *= rescale_value`
  and `low *= rescale_value`; then
  `self.low = growth.high/low` and `self.high = growth.low/high`.

Returns the pair `(self.low, self.high)`. -/
def selfInteractionTruncation (preset : SITruncPreset)
    (growth_initialized : Bool) (growth_low growth_high : ℚ)
    (rescale_value : Option ℚ) : Except SITruncError (ℚ × ℚ) :=
  if !growth_initialized then .error .growthNotInitialized
  else
    let high : ℚ := match preset with
      | .mouse => 1e13
      | .human => 1e14
    let low : ℚ := 1e2
    match rescale_value with
    | none => .ok (growth_high / low, growth_low / high)
    | some r =>
      if r ≤ 0 then .error .rescaleValueNotPositive
      else .ok (growth_high / (low * r), growth_low / (high * r))

/-- The truncation bounds as the claim words them:
`low = growth.high / assumed_high_abundance`,
`high = growth.low / assumed_low_abundance`, with assumed steady-state
abundance range `1e2`-`1e12` (mouse) and `1e2`-`1e13` (human, no rescale). -/
def selfInteractionTruncation_claimed (preset : SITruncPreset)
    (growth_low growth_high : ℚ) : ℚ × ℚ :=
  let assumed_high : ℚ := match preset with
    | .mouse => 1e12
    | .human => 1e13
  let assumed_low : ℚ := 1e2
  (growth_high / assumed_high, growth_low / assumed_low)

/- ===================================================================
   §5  Process-variance conjugate update
       (ProcessVarGlobal.update, posterior.py lines 696-749)
   =================================================================== -/

/-- Modelled from the spec: `Data.construct_lhs` (the design-matrix machinery
of the probabilistic-graph runtime, not under `src/`).  Per the in-code
derivation in `ProcessVarGlobal.update`, it returns the dynamics residual
`z = y - Xb` where `y = (log(x_{k+1}) - log(x_k))/dt` and `Xb` is the
deterministic drift prediction; row `k` is `dlogx_k / dt_k - drift_k`. -/
noncomputable def construct_lhs_residual (dlogx drift dt : List ℝ) : List ℝ :=
  List.zipWith (fun p t => p.1 / t - p.2) (dlogx.zip drift) dt

/-- Embeds `ProcessVarGlobal.update` (no zero-inflation policy active):
`z = z * sqrt_dt_vec`, `residual = Σ z²`,
`dof' = prior.dof + len(z)`,
`scale' = (prior.scale·prior.dof + residual)/dof'`.
Returns `(dof', scale')`. -/
noncomputable def ProcessVarGlobal_update (prior_dof prior_scale : ℝ)
    (z sqrt_dt_vec : List ℝ) : ℝ × ℝ :=
  let zs := List.zipWith (fun a b => a * b) z sqrt_dt_vec
  let residual := (zs.map fun x => x ^ 2).sum
  let dof : ℝ := prior_dof + zs.length
  (dof, (prior_scale * prior_dof + residual) / dof)

/-- The claim's posterior parameters, written from the spec's words:
`dof' = dof_prior + N`, `scale' = (scale_prior·dof_prior + Σz²)/dof'`,
where `z` is the dynamics residual — observed Δlog-abundance minus the
deterministic drift prediction, `dlogx_k - drift_k·dt_k` — standardized by
`√Δt`, and `N` is the number of residual entries. -/
noncomputable def processVar_posterior_claimed (prior_dof prior_scale : ℝ)
    (dlogx drift dt : List ℝ) : ℝ × ℝ :=
  let zs := List.zipWith (fun p t => (p.1 - p.2 * t) / Real.sqrt t) (dlogx.zip drift) dt
  let dof : ℝ := prior_dof + zs.length
  (dof, (prior_scale * prior_dof + (zs.map fun x => x ^ 2).sum) / dof)

/- ===================================================================
   §6  Model-comparison RMSE
       (plot_prediction_results.py lines 18-36)
   =================================================================== -/

/-- Embeds `tr /= tr.sum(axis=1, keepdims=True)`: each timepoint row of the
ground truth is normalized to relative abundance by its own sum. -/
noncomputable def normalize_rel (tr : List (List ℝ)) : List (List ℝ) :=
  tr.map fun row => row.map fun x => x / row.sum

/-- Elementwise squared differences of two timepoint-by-taxon tables,
flattened — embeds `np.square(a - b)` as consumed by `np.mean`. -/
noncomputable def sq_diffs (a b : List (List ℝ)) : List ℝ :=
  (List.zipWith (fun ra rb => List.zipWith (fun x y => (x - y) ^ 2) ra rb) a b).join

/-- Embeds `np.mean` of a flattened array: sum divided by element count. -/
noncomputable def np_mean (l : List ℝ) : ℝ := l.sum / l.length

/-- Embeds the per-replicate body of `compute_rmses`:
`np.sqrt(np.mean(np.square(tr[1:] - pred[1:])))` after the in-place
normalization of `tr`; `tr[1:]`/`pred[1:]` drop the first timepoint. -/
noncomputable def compute_rmses_one (tr pred : List (List ℝ)) : ℝ :=
  Real.sqrt (np_mean (sq_diffs (normalize_rel tr).tail pred.tail))

/-- Embeds `pred = np.array([tr[0] for t in range(tr.shape[0])])` inside
`compute_rmse_static`: the constant baseline repeats the first ground-truth
timepoint at every timepoint. -/
def compute_rmse_static_pred (tr : List (List ℝ)) : List (List ℝ) :=
  List.replicate tr.length tr.headI

/-- Embeds the per-replicate body of `compute_rmse_static`:
`np.sqrt(np.mean(np.square(tr[1:] - pred[1:])))` with the constant
first-timepoint prediction. -/
noncomputable def compute_rmse_static_one (tr : List (List ℝ)) : ℝ :=
  Real.sqrt (np_mean (sq_diffs tr.tail (compute_rmse_static_pred tr).tail))

/-- The claim's RMSE formula, written from the spec's words: the square root
of the mean, over all timepoints after the first and all taxa, of the squared
difference between the model's prediction and the ground truth normalized
per-timepoint to relative abundance. -/
noncomputable def rmse_claimed (tr pred : List (List ℝ)) : ℝ :=
  Real.sqrt (np_mean (sq_diffs (normalize_rel tr).tail pred.tail))

/- ===================================================================
   Theorems
   =================================================================== -/

/-- Standardization identity: multiplying the rate residual `d/t - b` by
`√t` equals dividing the Δlog residual `d - b·t` by `√t`, for `t > 0`. -/
theorem zipWith_standardize_eq (l : List (ℝ × ℝ)) (dt : List ℝ)
    (h : ∀ t ∈ dt, 0 < t) :
    List.zipWith (fun a b => a * b)
        (List.zipWith (fun p t => p.1 / t - p.2) l dt) (dt.map Real.sqrt)
      = List.zipWith (fun p t => (p.1 - p.2 * t) / Real.sqrt t) l dt := by
  induction dt generalizing l with
  | nil => cases l <;> simp
  | cons t ts ih =>
    cases l with
    | nil => simp
    | cons p ps =>
      simp only [List.map_cons, List.zipWith_cons_cons, List.cons.injEq]
      constructor
      · have ht : 0 < t := h t (List.mem_cons_self t ts)
        have hts : Real.sqrt t ≠ 0 := ne_of_gt (Real.sqrt_pos.mpr ht)
        rw [eq_div_iff hts, mul_assoc, Real.mul_self_sqrt ht.le]
        field_simp
        ring
      · exact ih ps fun x hx => h x (List.mem_cons_of_mem _ hx)

/-- Every entry of `sq_diffs a a` vanishes, so its sum is zero. -/
theorem sq_diffs_self_sum (a : List (List ℝ)) : (sq_diffs a a).sum = 0 := by
  apply List.sum_eq_zero
  intro x hx
  simp only [sq_diffs, List.zipWith_same, List.mem_join, List.mem_map] at hx
  obtain ⟨row, ⟨r, _, hrow⟩, hxrow⟩ := hx
  rw [← hrow, List.mem_map] at hxrow
  obtain ⟨v, _, hv⟩ := hxrow
  rw [← hv]
  ring

/-- C4: for every `k ≥ 0`, `m > 0`, `dispersion > 0`, the non-condensed
negative-binomial log-likelihood minus the condensed variant equals
`-lgamma(k+1)`, a term independent of `m` and `dispersion`. -/
theorem C4_negbin_condensed_difference (k m dispersion : ℝ)
    (hk : 0 ≤ k) (hm : 0 < m) (hd : 0 < dispersion) :
    negbin_loglikelihood k m dispersion
      - negbin_loglikelihood_MH_condensed k m dispersion = -lgamma (k + 1) := by
  simp only [negbin_loglikelihood, negbin_loglikelihood_MH_condensed]
  ring

/-- C4 witness: the difference identity instantiated at `k = 0`, `m = 1`,
`dispersion = 1`. -/
theorem C4_negbin_condensed_difference_witness :
    (0:ℝ) ≤ 0 ∧ (0:ℝ) < 1 ∧ (0:ℝ) < 1 ∧
      negbin_loglikelihood 0 1 1 - negbin_loglikelihood_MH_condensed 0 1 1
        = -lgamma (0 + 1) :=
  ⟨le_refl 0, one_pos, one_pos, C4_negbin_condensed_difference 0 1 1 (le_refl 0) one_pos one_pos⟩

/-- C1 counterexample: the claim pairs the filter's transition mean with
noise variance `process_variance/Δt`; at `Δt = 4`, `pv = 1` (so
`curr_pv_std = 1`) and all other inputs zero, the filter's transition
log-density differs from the claimed one, because the code's standard
deviation is `pv_std·√Δt = 2` while the claim's is `√(pv/Δt) = 1/2`. -/
theorem C1_counterexample :
    default_forward_loglik 0 0 0 0 0 0 4 1 ≠ forward_loglik_claimed 0 0 0 0 0 0 4 1 := by
  have h4 : Real.sqrt 4 = 2 := by
    rw [show (4:ℝ) = 2 ^ 2 by norm_num, Real.sqrt_sq (by norm_num : (0:ℝ) ≤ 2)]
  have hq : Real.sqrt ((1:ℝ) / 4) = 1 / 2 := by
    rw [show (1:ℝ) / 4 = (1 / 2) ^ 2 by norm_num,
      Real.sqrt_sq (by norm_num : (0:ℝ) ≤ 1 / 2)]
  have hinv : Real.log ((1:ℝ) / 2) = -Real.log 2 := by
    rw [one_div, Real.log_inv]
  have hl : (0:ℝ) < Real.log 2 := Real.log_pos (by norm_num)
  simp only [default_forward_loglik, forward_loglik_claimed, compute_dynamics,
    _normal_logpdf, h4, hq]
  intro h
  rw [hinv] at h
  norm_num at h
  linarith

/-- C1 (amended): the transition density evaluated by the filter from
timepoint `t` to the next is Normal with mean
`log x_i(t) + [a1 - x_i(t)·a2 + Σ_j A_ij·x_j(t)]·Δt` (with `a1` the
perturbation-scaled growth rate when a perturbation is active) and with
noise variance `process_variance·Δt` (not `process_variance/Δt`):
with `curr_pv_std = √pv`, the log-density equals the Normal log-pdf with
that mean and standard deviation `√(pv·Δt)`. -/
theorem C1_forward_density_amended
    (next_logx logxi xi a2 Axj a1 dt pv : ℝ) (hpv : 0 ≤ pv) :
    default_forward_loglik next_logx logxi xi a2 Axj a1 dt (Real.sqrt pv) =
      _normal_logpdf next_logx (logxi + (a1 - xi * a2 + Axj) * dt)
        (Real.sqrt (pv * dt)) := by
  simp only [default_forward_loglik, compute_dynamics, Real.sqrt_mul hpv]

/-- C1 amended witness: the density identity instantiated at
`next_logx = 1`, `logxi = 0`, `xi = 1`, `a2 = 1`, `Axj = 0`, `a1 = 2`,
`Δt = 4`, `pv = 9`. -/
theorem C1_forward_density_amended_witness :
    (0:ℝ) ≤ 9 ∧
      default_forward_loglik 1 0 1 1 0 2 4 (Real.sqrt 9) =
        _normal_logpdf 1 (0 + (2 - 1 * 1 + 0) * 4) (Real.sqrt (9 * 4)) :=
  ⟨by norm_num, C1_forward_density_amended 1 0 1 1 0 2 4 9 (by norm_num)⟩

/-- C2: evaluation of the self-interaction truncation code at the failing
input `preset = mouse`, `growth.low = 1`, `growth.high = 10`, no rescale
value.  The code yields `(low, high) = (growth.high/1e2, growth.low/1e13)
= (1/10, 1/10^13)` — an inverted interval with `low > high` — whereas the
claimed (and docstring-intended) bounds are
`(growth.high/1e12, growth.low/1e2) = (1/10^11, 1/100)`. -/
theorem C2_code_evaluation :
    selfInteractionTruncation SITruncPreset.mouse true 1 10 none
        = Except.ok (1 / 10, 1 / 10 ^ 13) ∧
      ((1:ℚ) / 10 ^ 13 < 1 / 10) ∧
      selfInteractionTruncation_claimed SITruncPreset.mouse 1 10
        = (1 / 10 ^ 11, 1 / 100) ∧
      selfInteractionTruncation_claimed SITruncPreset.mouse 1 10
        ≠ (1 / 10, 1 / 10 ^ 13) := by
  refine ⟨?_, by norm_num, ?_, ?_⟩
  · simp only [selfInteractionTruncation]
    norm_num
  · simp only [selfInteractionTruncation_claimed]
    norm_num
  · simp only [selfInteractionTruncation_claimed]
    intro h
    rw [Prod.mk.injEq] at h
    norm_num at h

/-- C8: `expected_n_clusters` returns
`concentration · ln((n_asvs + concentration)/concentration)`, and at
`concentration = 1`, `n_asvs = 100` the result is exactly `ln 101`. -/
theorem C8_expected_n_clusters_formula :
    (∀ (conc : ℝ) (n : ℕ),
      expected_n_clusters conc n = expected_n_clusters_spec conc n) ∧
    expected_n_clusters 1 100 = Real.log 101 := by
  refine ⟨fun conc n => rfl, ?_⟩
  norm_num [expected_n_clusters]

/-- C3: every `ProcessVarGlobal.update` call sets
`dof' = dof_prior + N` and `scale' = (scale_prior·dof_prior + Σz²)/dof'`,
where `z` is the dynamics residual standardized by `√Δt` and `N` the number
of residual entries: the code's update on the residual from
`construct_lhs` agrees with the claimed posterior parameters whenever all
timepoint spacings are positive. -/
theorem C3_processvar_update (prior_dof prior_scale : ℝ)
    (dlogx drift dt : List ℝ) (h : ∀ t ∈ dt, 0 < t) :
    ProcessVarGlobal_update prior_dof prior_scale
        (construct_lhs_residual dlogx drift dt) (dt.map Real.sqrt)
      = processVar_posterior_claimed prior_dof prior_scale dlogx drift dt := by
  simp only [ProcessVarGlobal_update, processVar_posterior_claimed,
    construct_lhs_residual]
  rw [zipWith_standardize_eq (dlogx.zip drift) dt h]

/-- C3 witness: the update identity instantiated at
`dof_prior = 2.5`, `scale_prior = 0.04`, `Δlog x = [2]`, `drift = [1]`,
`Δt = [4]`. -/
theorem C3_processvar_update_witness :
    (∀ t ∈ [(4:ℝ)], 0 < t) ∧
      ProcessVarGlobal_update 2.5 0.04
          (construct_lhs_residual [2] [1] [(4:ℝ)]) ([(4:ℝ)].map Real.sqrt)
        = processVar_posterior_claimed 2.5 0.04 [2] [1] [4] := by
  have hpos : ∀ t ∈ [(4:ℝ)], 0 < t := by
    intro t ht
    rw [List.mem_singleton] at ht
    rw [ht]
    norm_num
  exact ⟨hpos, C3_processvar_update 2.5 0.04 [2] [1] [4] hpos⟩

/-- C9: the model-comparison RMSE equals the square root of the mean squared
difference between prediction and per-timepoint-normalized truth over all
timepoints after the first; a prediction identical to the normalized truth
yields RMSE exactly 0; and the `initial` constant baseline predicts the
first ground-truth timepoint at every timepoint. -/
theorem C9_rmse_properties :
    (∀ tr pred : List (List ℝ), compute_rmses_one tr pred = rmse_claimed tr pred) ∧
    (∀ tr : List (List ℝ), compute_rmses_one tr (normalize_rel tr) = 0) ∧
    (∀ (tr : List (List ℝ)) (row : List ℝ),
      row ∈ compute_rmse_static_pred tr → row = tr.headI) := by
  refine ⟨fun tr pred => rfl, fun tr => ?_, fun tr row hrow => ?_⟩
  · simp only [compute_rmses_one, np_mean, sq_diffs_self_sum, zero_div,
      Real.sqrt_zero]
  · exact List.eq_of_mem_replicate hrow

/-- C9 witness: the three properties instantiated at the concrete replicate
`truth = [[1], [2]]`; in particular the constant baseline's second-row
prediction is the first truth row `[1]`. -/
theorem C9_rmse_properties_witness :
    compute_rmses_one [[1], [2]] (normalize_rel [[1], [2]]) = 0 ∧
      ([(1:ℝ)] ∈ compute_rmse_static_pred [[1], [2]] ∧
        [(1:ℝ)] = ([[1], [2]] : List (List ℝ)).headI) :=
  ⟨C9_rmse_properties.2.1 [[1], [2]],
    by simp [compute_rmse_static_pred],
    C9_rmse_properties.2.2 [[1], [2]] [1] (by simp [compute_rmse_static_pred])⟩

/- ===================================================================
   §7  Joint interaction/perturbation Gibbs block
       (RegressCoeff, posterior.py lines 6523-6682)
   =================================================================== -/

/-- Observable actions of `RegressCoeff._update_perts_and_inter`:
a separate `ClusterInteractionValue.update()`, a separate
`PerturbationMagnitudes.update()`, or assignment from one joint
multivariate-normal sample. -/
inductive UpdateAction
  | interactions_update
  | pert_update
  | joint_assign
deriving DecidableEq

/-- Embeds the control flow of `RegressCoeff._update_perts_and_inter`.
Data-dependent quantities are parameters: `coin_lt_half` is the outcome of
`fast_sample_standard_uniform() < 0.5`; `inter_past_delay` /
`pert_past_delay` compare each variable's `sample_iter` with its delay;
`n_cols` is `X.shape[1]` of the combined design matrix; `sample_succeeds`
is whether `self.sample()` returns without raising.  Returns the list of
actions performed, in order. -/
def RegressCoeff_update_perts_and_inter
    (update_jointly_pert_inter coin_lt_half there_are_perturbations : Bool)
    (inter_past_delay pert_past_delay : Bool)
    (n_cols : ℕ) (sample_succeeds : Bool) : List UpdateAction :=
  if !update_jointly_pert_inter then
    if coin_lt_half then
      UpdateAction.interactions_update ::
        (if there_are_perturbations then [UpdateAction.pert_update] else [])
    else
      (if there_are_perturbations then [UpdateAction.pert_update] else [])
        ++ [UpdateAction.interactions_update]
  else
    let rhs_has_inter := inter_past_delay
    let rhs_has_pert := there_are_perturbations && pert_past_delay
    if !rhs_has_inter && !rhs_has_pert then []
    else if n_cols = 0 then []
    else if !sample_succeeds then
      [UpdateAction.pert_update, UpdateAction.interactions_update]
    else [UpdateAction.joint_assign]

/- ===================================================================
   §8  Unimplemented configuration combinations
       (RegressCoeff at posterior.py 6523-6566;
        ClusterAssignments.update_mp at 1714-1728)
   =================================================================== -/

/-- The `NotImplementedError` raised for unimplemented configurations. -/
inductive NotImplemented
  | notImplemented
deriving DecidableEq

/-- Embeds the tail of `RegressCoeff.initialize`: after storing
`update_jointly_growth_si`, `update_jointly_pert_inter` and
`sample_iter = 0`, it raises `NotImplementedError` when
`update_jointly_growth_si` is true; otherwise the stored flags stand. -/
def RegressCoeff_init (update_jointly_pert_inter update_jointly_growth_si : Bool) :
    Except NotImplemented (Bool × Bool) :=
  if update_jointly_growth_si then .error .notImplemented
  else .ok (update_jointly_pert_inter, update_jointly_growth_si)

/-- Embeds the guard at the top of `ClusterAssignments.update_mp`: with a
zero-inflation transition policy active it raises `NotImplementedError`
before doing anything else; otherwise it proceeds with the multiprocessing
update (abstracted as `rest`). -/
def ClusterAssignments_update_mp {α : Type}
    (zero_inflation_transition_policy : Option String)
    (rest : Except NotImplemented α) : Except NotImplemented α :=
  match zero_inflation_transition_policy with
  | some _ => .error .notImplemented
  | none => rest

/- ===================================================================
   §9  Crash dumps in pinv / log_det (posterior.py lines 274-353)
   =================================================================== -/

/-- The fields of the `pylab` variable that the crash-dump filename reads:
`sample_iter` (`none` models the attribute access itself raising, in which
case the code substitutes Python `None`), the variable `name` and the graph
name `G.name`. -/
structure PLVariable where
  sample_iter : Option ℕ
  name : String
  graph_name : String

/-- Embeds Python's `'{}'.format(sample_iter)`: the decimal rendering of the
iteration, or `"None"` when `var.sample_iter` raised. -/
def format_iter (v : PLVariable) : String :=
  match v.sample_iter with
  | some n => toString n
  | none => "None"

/-- Embeds the filename
`'crashes/pinv_error_iter{}_var{}pinv_{}.npy'.format(sample_iter, var.name, var.G.name)`. -/
def pinv_crash_filename (v : PLVariable) : String :=
  "crashes/pinv_error_iter" ++ format_iter v ++ "_var" ++ v.name
    ++ "pinv_" ++ v.graph_name ++ ".npy"

/-- Embeds the filename
`'crashes/logdet_error_iter{}_var{}pinv_{}.npy'.format(sample_iter, var.name, var.G.name)`. -/
def logdet_crash_filename (v : PLVariable) : String :=
  "crashes/logdet_error_iter" ++ format_iter v ++ "_var" ++ v.name
    ++ "pinv_" ++ v.graph_name ++ ".npy"

/-- Embeds `pinv(M, var)`.  The three fallback inversion routines
(`np.linalg.pinv`, `scipy.linalg.pinv`, `scipy.linalg.inv` — external
numerics, abstracted as parameters returning `none` when they raise) are
tried in order; if all fail, the dense matrix is saved under `crashes/` and
the exception is re-raised.  Returns (files written, result or `none` for a
propagated exception). -/
def pinv_run {M R : Type}
    (np_linalg_pinv scipy_linalg_pinv scipy_linalg_inv : M → Option R)
    (Mx : M) (var : PLVariable) : List String × Option R :=
  match np_linalg_pinv Mx with
  | some r => ([], some r)
  | none =>
    match scipy_linalg_pinv Mx with
    | some r => ([], some r)
    | none =>
      match scipy_linalg_inv Mx with
      | some r => ([], some r)
      | none => ([pinv_crash_filename var], none)

/-- Embeds `log_det(M, var)`: `pl.math.log_det` (external, abstracted) is
attempted; on failure the matrix is saved under `crashes/` and the exception
is re-raised. -/
def log_det_run {M R : Type} (pl_math_log_det : M → Option R)
    (Mx : M) (var : PLVariable) : List String × Option R :=
  match pl_math_log_det Mx with
  | some r => ([], some r)
  | none => ([logdet_crash_filename var], none)

/- ===================================================================
   §10  Zero-column marginal log-likelihoods
        (posterior.py lines 1447-1457 and 4711-4717)
   =================================================================== -/

/-- The numeric entries of the dictionary returned by the collapsed marginal
log-likelihood routines; callers consume the `ret` entry. -/
structure MarginalLLResult where
  ret : ℝ
  beta_logdet : ℝ
  priorvar_logdet : ℝ
  bEb : ℝ
  bEbprior : ℝ

/-- Embeds the zero-column guard of
`ClusterAssignments.calculate_marginal_loglikelihood_slow`: when the
marginalized design matrix `X` has `X.shape[1] == 0`, the routine returns the
all-zero dictionary before any `pinv`/`log_det` call; otherwise it performs
the marginalization (abstracted as `marginalization`, which may crash). -/
def ClusterAssignments_marginal_loglik_slow (n_cols : ℕ)
    (marginalization : Except String MarginalLLResult) :
    Except String MarginalLLResult :=
  if n_cols = 0 then .ok ⟨0, 0, 0, 0, 0⟩ else marginalization

/-- Embeds the zero-column guard of
`ClusterInteractionIndicators.calculate_marginal_loglikelihood`, identical in
shape: `X.shape[1] == 0` short-circuits to the all-zero dictionary. -/
def ClusterInteractionIndicators_marginal_loglik (n_cols : ℕ)
    (marginalization : Except String MarginalLLResult) :
    Except String MarginalLLResult :=
  if n_cols = 0 then .ok ⟨0, 0, 0, 0, 0⟩ else marginalization

/-- C5 counterexample: with joint updating configured, both variables past
their delay, perturbations present and a combined design matrix of zero
active columns, the update returns having performed *no* action at all — in
particular neither separate update occurs, refuting the claimed fallback to
separate updates in the zero-column case. -/
theorem C5_counterexample :
    RegressCoeff_update_perts_and_inter true true true true true 0 true = [] ∧
      UpdateAction.interactions_update ∉
        RegressCoeff_update_perts_and_inter true true true true true 0 true ∧
      UpdateAction.pert_update ∉
        RegressCoeff_update_perts_and_inter true true true true true 0 true := by
  decide

/-- C5 (amended): when interactions and perturbations are updated jointly and
both are past their update delay, a numerically failing joint sample draw
falls back to separate updates (perturbations first, then interactions),
while a combined design matrix with zero active columns causes the update to
be skipped entirely — no separate fallback. -/
theorem C5_joint_update_amended (coin : Bool) (n_cols : ℕ) (sample_succeeds : Bool) :
    RegressCoeff_update_perts_and_inter true coin true true true 0 sample_succeeds = [] ∧
      (n_cols ≠ 0 →
        RegressCoeff_update_perts_and_inter true coin true true true n_cols false
          = [UpdateAction.pert_update, UpdateAction.interactions_update]) := by
  constructor
  · simp [RegressCoeff_update_perts_and_inter]
  · intro h
    simp [RegressCoeff_update_perts_and_inter, h]

/-- C5 amended witness: instantiated with three active columns and a failing
sample draw. -/
theorem C5_joint_update_amended_witness :
    (3:ℕ) ≠ 0 ∧
      RegressCoeff_update_perts_and_inter true true true true true 3 false
        = [UpdateAction.pert_update, UpdateAction.interactions_update] :=
  ⟨by decide, (C5_joint_update_amended true 3 false).2 (by decide)⟩

/-- C6: unimplemented configuration combinations raise `NotImplementedError`
instead of being silently ignored: `RegressCoeff.initialize` with
`update_jointly_growth_si = True` fails for either setting of the other
flag, and `ClusterAssignments.update_mp` fails whenever a zero-inflation
transition policy is set, whatever the rest of the update would do. -/
theorem C6_not_implemented_raises :
    (∀ jp : Bool, RegressCoeff_init jp true = .error .notImplemented) ∧
    (∀ (α : Type) (policy : String) (rest : Except NotImplemented α),
      ClusterAssignments_update_mp (some policy) rest = .error .notImplemented) :=
  ⟨fun jp => rfl, fun _ _ _ => rfl⟩

/-- C7: when every fallback inversion routine raises, `pinv` (and likewise
`log_det` when its routine raises) writes exactly one dump file whose name
lies under `crashes/` and encodes the operation, the sample iteration, the
variable name and the graph name, and the exception still propagates;
moreover, whenever either function writes any file at all the exception
propagates — the dump never suppresses it. -/
theorem C7_crash_dump (M R : Type) (p1 p2 p3 ld : M → Option R)
    (Mx : M) (var : PLVariable)
    (h1 : p1 Mx = none) (h2 : p2 Mx = none) (h3 : p3 Mx = none)
    (hld : ld Mx = none) :
    pinv_run p1 p2 p3 Mx var = ([pinv_crash_filename var], none) ∧
    log_det_run ld Mx var = ([logdet_crash_filename var], none) ∧
    pinv_crash_filename var =
      "crashes/" ++ ("pinv_error_iter" ++ format_iter var ++ "_var" ++ var.name
        ++ "pinv_" ++ var.graph_name ++ ".npy") ∧
    logdet_crash_filename var =
      "crashes/" ++ ("logdet_error_iter" ++ format_iter var ++ "_var" ++ var.name
        ++ "pinv_" ++ var.graph_name ++ ".npy") ∧
    (∀ (q1 q2 q3 : M → Option R) (N : M),
      (pinv_run q1 q2 q3 N var).1 ≠ [] → (pinv_run q1 q2 q3 N var).2 = none) ∧
    (∀ (q : M → Option R) (N : M),
      (log_det_run q N var).1 ≠ [] → (log_det_run q N var).2 = none) := by
  refine ⟨?_, ?_, ?_, ?_, ?_, ?_⟩
  · simp [pinv_run, h1, h2, h3]
  · simp [log_det_run, hld]
  · have hlit : ("crashes/" ++ "pinv_error_iter" : String) = "crashes/pinv_error_iter" := rfl
    rw [pinv_crash_filename, ← hlit]
    simp only [String.append_assoc]
  · have hlit : ("crashes/" ++ "logdet_error_iter" : String) = "crashes/logdet_error_iter" := rfl
    rw [logdet_crash_filename, ← hlit]
    simp only [String.append_assoc]
  · intro q1 q2 q3 N h
    simp only [pinv_run] at h ⊢
    rcases hq1 : q1 N with _ | r1
    · rcases hq2 : q2 N with _ | r2
      · rcases hq3 : q3 N with _ | r3
        · simp [hq1, hq2, hq3]
        · simp [hq1, hq2, hq3] at h
      · simp [hq1, hq2] at h
    · simp [hq1] at h
  · intro q N h
    simp only [log_det_run] at h ⊢
    rcases hq : q N with _ | r
    · simp [hq]
    · simp [hq] at h

/-- C7 witness: instantiated with one-point matrix and result types and
primitives that always fail, at iteration 5, variable name `growth`, graph
name `graph1`. -/
theorem C7_crash_dump_witness :
    pinv_run (fun _ : Unit => (none : Option Unit)) (fun _ => none) (fun _ => none)
        () ⟨some 5, "growth", "graph1"⟩
      = ([pinv_crash_filename ⟨some 5, "growth", "graph1"⟩], none) ∧
    log_det_run (fun _ : Unit => (none : Option Unit)) () ⟨some 5, "growth", "graph1"⟩
      = ([logdet_crash_filename ⟨some 5, "growth", "graph1"⟩], none) :=
  ⟨(C7_crash_dump Unit Unit (fun _ => none) (fun _ => none) (fun _ => none)
      (fun _ => none) () ⟨some 5, "growth", "graph1"⟩ rfl rfl rfl rfl).1,
   (C7_crash_dump Unit Unit (fun _ => none) (fun _ => none) (fun _ => none)
      (fun _ => none) () ⟨some 5, "growth", "graph1"⟩ rfl rfl rfl rfl).2.1⟩

/-- C10: with every interaction (and perturbation) indicator off — a
marginalized design matrix of zero columns — both collapsed marginal
log-likelihood routines return the all-zero dictionary (in particular
`ret = 0`) instead of raising, whatever the abstracted marginalization body
would have done; consequently each candidate's score `a + ret` reduces to
its size-based/prior weight `a` alone. -/
theorem C10_zero_columns_marginal_loglik :
    (∀ marg : Except String MarginalLLResult,
      ClusterAssignments_marginal_loglik_slow 0 marg = .ok ⟨0, 0, 0, 0, 0⟩) ∧
    (∀ marg : Except String MarginalLLResult,
      ClusterInteractionIndicators_marginal_loglik 0 marg = .ok ⟨0, 0, 0, 0, 0⟩) ∧
    (∀ (a : ℝ) (marg : Except String MarginalLLResult) (res : MarginalLLResult),
      ClusterAssignments_marginal_loglik_slow 0 marg = .ok res →
        a + res.ret = a) := by
  refine ⟨fun marg => rfl, fun marg => rfl, fun a marg res h => ?_⟩
  have : (⟨0, 0, 0, 0, 0⟩ : MarginalLLResult) = res := by
    have h0 : ClusterAssignments_marginal_loglik_slow 0 marg
        = .ok ⟨0, 0, 0, 0, 0⟩ := rfl
    rw [h0] at h
    exact Except.ok.inj h
  rw [← this]
  exact add_zero a

/-- C10 witness: the size-weight consequence instantiated at weight `2` with
a crashing marginalization body. -/
theorem C10_zero_columns_marginal_loglik_witness :
    ClusterAssignments_marginal_loglik_slow 0 (.error "crash")
        = .ok ⟨0, 0, 0, 0, 0⟩ ∧
      (2:ℝ) + (⟨0, 0, 0, 0, 0⟩ : MarginalLLResult).ret = 2 :=
  ⟨rfl, C10_zero_columns_marginal_loglik.2.2 2 (.error "crash") ⟨0, 0, 0, 0, 0⟩ rfl⟩
